import Mathlib

/-!
swSharp: the reconstruction dispatcher `swReconstructGPU`.

Source: `src/sw_reconstruct_gpu.c`.

```c
extern SWHirschbergData* swReconstructGPU(Chain* rowChain, Chain* columnChain,
    SWPrefs* swPrefs) {
    int matcherType = matcherGetType(swPrefsGetMatcher(swPrefs));
    if (matcherType == MATCHER_MATRIX) {
        return swReconstructGPUSM(rowChain, columnChain, swPrefs);
    } else {
        return swReconstructGPUMM(rowChain, columnChain, swPrefs);
    }
}
```

The function is embedded by explicit state passing: the program memory is threaded
through every call, and every call to a function of another translation unit is
recorded in a call log, so that "which engine ran, how often, on which arguments"
is a statement about the value the embedding computes.
-/

namespace SwSharp

/-! Calls to other translation units. -/

/-- The two reconstruction engines the dispatcher can route to:
`swReconstructGPUSM` (substitution matrix) and `swReconstructGPUMM` (match/mismatch). -/
inductive Engine where
  | SM
  | MM
  deriving DecidableEq, Repr

/-- One call made by `swReconstructGPU` to a function defined outside
`sw_reconstruct_gpu.c`, with the arguments it was given. An engine call also records
the memory the engine was entered with. -/
inductive Call (Mem Chain SWPrefs Matcher : Type) where
  | swPrefsGetMatcher (swPrefs : SWPrefs)
  | matcherGetType (matcher : Matcher)
  | reconstruct (engine : Engine) (rowChain columnChain : Chain) (swPrefs : SWPrefs) (mem : Mem)

/-- The engine named by a call, if the call is an engine call. -/
def Call.engine? {Mem Chain SWPrefs Matcher : Type} :
    Call Mem Chain SWPrefs Matcher → Option Engine
  | .reconstruct e _ _ _ _ => some e
  | _ => none

/-- The engines invoked by a call log, in call order. -/
def enginesInvoked {Mem Chain SWPrefs Matcher : Type}
    (calls : List (Call Mem Chain SWPrefs Matcher)) : List Engine :=
  calls.filterMap Call.engine?

/-- How many times engine `e` is invoked in a call log. -/
def invocations {Mem Chain SWPrefs Matcher : Type} (e : Engine)
    (calls : List (Call Mem Chain SWPrefs Matcher)) : Nat :=
  (enginesInvoked calls).count e

/-- What a computation leaves behind: the returned value, the memory afterwards and the
calls it made, oldest first. -/
structure Ran (Mem Chain SWPrefs Matcher α : Type) where
  value : α
  mem : Mem
  calls : List (Call Mem Chain SWPrefs Matcher)

/-- A computation: a function of the memory it starts in. -/
def Run (Mem Chain SWPrefs Matcher α : Type) : Type :=
  Mem → Ran Mem Chain SWPrefs Matcher α

/-- Sequencing of C statements: run `x`, then `f` on its value in the memory `x` left;
the call logs are concatenated. -/
def Run.bind {Mem Chain SWPrefs Matcher α β : Type}
    (x : Run Mem Chain SWPrefs Matcher α) (f : α → Run Mem Chain SWPrefs Matcher β) :
    Run Mem Chain SWPrefs Matcher β :=
  fun mem =>
    let a := x mem
    let b := f a.value a.mem
    { value := b.value, mem := b.mem, calls := a.calls ++ b.calls }

/-! The declarations `sw_reconstruct_gpu.c` takes from its headers. -/

/-- Everything `swReconstructGPU` uses but does not define. The headers
(`matcher.h`, `sw_prefs.h`, `sw_reconstruct_gpu_sm.h`, `sw_reconstruct_gpu_mm.h`) are
not part of the source at hand, so the constant, the two accessors and the two engines
are parameters. The types `Chain`, `SWPrefs`, `Matcher` and `SWHirschbergData` are
opaque to the dispatcher (it only passes pointers on) and are type parameters.

* `MATCHER_MATRIX`: the `int` constant the matcher type is compared with. C `int`
  values are embedded as `Int`; the dispatcher only compares them with `==`, so no
  arithmetic can overflow;
* `swPrefsGetMatcher`, `matcherGetType`: the accessors. They are getters: they read the
  memory and do not write it (the configuration is a read-only input);
* `swReconstructGPUSM`, `swReconstructGPUMM`: the engines; an engine returns its
  result together with the memory it leaves. The result type is arbitrary, so a result
  may as well stand for a failure (a null pointer, an error). -/
structure Externals (Mem Chain SWPrefs Matcher SWHirschbergData : Type) where
  MATCHER_MATRIX : Int
  swPrefsGetMatcher : Mem → SWPrefs → Matcher
  matcherGetType : Mem → Matcher → Int
  swReconstructGPUSM : Chain → Chain → SWPrefs → Mem → SWHirschbergData × Mem
  swReconstructGPUMM : Chain → Chain → SWPrefs → Mem → SWHirschbergData × Mem

section Dispatcher

variable {Mem Chain SWPrefs Matcher SWHirschbergData : Type}

/-- The engine function behind an engine tag. -/
def Externals.engine (E : Externals Mem Chain SWPrefs Matcher SWHirschbergData) :
    Engine → Chain → Chain → SWPrefs → Mem → SWHirschbergData × Mem
  | .SM => E.swReconstructGPUSM
  | .MM => E.swReconstructGPUMM

/-- The call `swPrefsGetMatcher(swPrefs)`: reads the matcher, leaves the memory as it is,
logs the call. -/
def swPrefsGetMatcher (E : Externals Mem Chain SWPrefs Matcher SWHirschbergData)
    (swPrefs : SWPrefs) : Run Mem Chain SWPrefs Matcher Matcher :=
  fun mem =>
    { value := E.swPrefsGetMatcher mem swPrefs, mem := mem,
      calls := [Call.swPrefsGetMatcher swPrefs] }

/-- The call `matcherGetType(matcher)`: reads the type tag, leaves the memory as it is,
logs the call. -/
def matcherGetType (E : Externals Mem Chain SWPrefs Matcher SWHirschbergData)
    (matcher : Matcher) : Run Mem Chain SWPrefs Matcher Int :=
  fun mem =>
    { value := E.matcherGetType mem matcher, mem := mem,
      calls := [Call.matcherGetType matcher] }

/-- A call of one engine: the value and the memory are the engine's, and the call is
logged with its arguments and the memory the engine was entered with. -/
def callEngine (E : Externals Mem Chain SWPrefs Matcher SWHirschbergData) (e : Engine)
    (rowChain columnChain : Chain) (swPrefs : SWPrefs) :
    Run Mem Chain SWPrefs Matcher SWHirschbergData :=
  fun mem =>
    { value := (E.engine e rowChain columnChain swPrefs mem).1,
      mem := (E.engine e rowChain columnChain swPrefs mem).2,
      calls := [Call.reconstruct e rowChain columnChain swPrefs mem] }

/-- The call `swReconstructGPUSM(rowChain, columnChain, swPrefs)`. -/
def swReconstructGPUSM (E : Externals Mem Chain SWPrefs Matcher SWHirschbergData)
    (rowChain columnChain : Chain) (swPrefs : SWPrefs) :
    Run Mem Chain SWPrefs Matcher SWHirschbergData :=
  callEngine E Engine.SM rowChain columnChain swPrefs

/-- The call `swReconstructGPUMM(rowChain, columnChain, swPrefs)`. -/
def swReconstructGPUMM (E : Externals Mem Chain SWPrefs Matcher SWHirschbergData)
    (rowChain columnChain : Chain) (swPrefs : SWPrefs) :
    Run Mem Chain SWPrefs Matcher SWHirschbergData :=
  callEngine E Engine.MM rowChain columnChain swPrefs

/-- The function `swReconstructGPU` of `sw_reconstruct_gpu.c`, statement by statement:
`matcherType = matcherGetType(swPrefsGetMatcher(swPrefs))`, then the `if`/`else` on
`matcherType == MATCHER_MATRIX`, each branch returning what its engine returns. -/
def swReconstructGPU (E : Externals Mem Chain SWPrefs Matcher SWHirschbergData)
    (rowChain columnChain : Chain) (swPrefs : SWPrefs) :
    Run Mem Chain SWPrefs Matcher SWHirschbergData :=
  (swPrefsGetMatcher E swPrefs).bind fun matcher =>
  (matcherGetType E matcher).bind fun matcherType =>
  if matcherType = E.MATCHER_MATRIX then
    swReconstructGPUSM E rowChain columnChain swPrefs
  else
    swReconstructGPUMM E rowChain columnChain swPrefs

/-- The value `matcherType` that `swReconstructGPU` computes for `swPrefs` in memory `mem`. -/
def matcherTypeOf (E : Externals Mem Chain SWPrefs Matcher SWHirschbergData)
    (mem : Mem) (swPrefs : SWPrefs) : Int :=
  E.matcherGetType mem (E.swPrefsGetMatcher mem swPrefs)

/-- The result an engine returns, on its own, for the given arguments and memory. -/
def engineResult (E : Externals Mem Chain SWPrefs Matcher SWHirschbergData) (e : Engine)
    (rowChain columnChain : Chain) (swPrefs : SWPrefs) (mem : Mem) : SWHirschbergData :=
  (E.engine e rowChain columnChain swPrefs mem).1

/-- The complete outcome of a run that routes to engine `e`: the engine's value and
memory, and the three calls made. -/
def routed (E : Externals Mem Chain SWPrefs Matcher SWHirschbergData) (e : Engine)
    (rowChain columnChain : Chain) (swPrefs : SWPrefs) (mem : Mem) :
    Ran Mem Chain SWPrefs Matcher SWHirschbergData :=
  { value := (E.engine e rowChain columnChain swPrefs mem).1
    mem := (E.engine e rowChain columnChain swPrefs mem).2
    calls := [Call.swPrefsGetMatcher swPrefs,
      Call.matcherGetType (E.swPrefsGetMatcher mem swPrefs),
      Call.reconstruct e rowChain columnChain swPrefs mem] }

/-- The engine the `if` of `swReconstructGPU` picks for a value of `matcherType`. -/
def route (E : Externals Mem Chain SWPrefs Matcher SWHirschbergData) (matcherType : Int) :
    Engine :=
  if matcherType = E.MATCHER_MATRIX then Engine.SM else Engine.MM

/-- An engine is a deterministic function of its arguments when its result does not
depend on the memory it is entered with. -/
def Deterministic (E : Externals Mem Chain SWPrefs Matcher SWHirschbergData) (e : Engine) :
    Prop :=
  ∀ (rowChain columnChain : Chain) (swPrefs : SWPrefs) (mem mem' : Mem),
    engineResult E e rowChain columnChain swPrefs mem =
      engineResult E e rowChain columnChain swPrefs mem'

end Dispatcher

/-! The engines and the scoring policy, as the specification describes them. The engine
sources (`sw_reconstruct_gpu_sm`, `sw_reconstruct_gpu_mm`) are not at hand; what follows
only instantiates the dispatcher at concrete inputs. No statement about the real engines
is drawn from it. -/

namespace Spec

/-- Modelled from the spec: the error taxonomy of section 7 (the engines and the error
type are missing from the source at hand). -/
inductive SWError where
  | AllocationError
  | InvalidRangeError
  | UnsupportedMatcherError
  | NoAlignmentFoundError
  deriving DecidableEq, Repr

/-- Modelled from the spec: a Sequence (`Chain`, missing from the source at hand) is an
ordered, immutable array of residue symbols from a finite alphabet; residues are
numbered. -/
abbrev Chain : Type := List Nat

/-- Modelled from the spec: a Scoring Policy (`Matcher`, missing from the source at
hand). It carries the capability tag `type` read by `matcherGetType`, and the data of
the two kinds of residue-pair scoring: a substitution matrix `table`, and the
`matchScore`/`mismatchScore` pair of the simple scheme. -/
structure Matcher where
  type : Int
  table : Nat → Nat → Int
  matchScore : Int
  mismatchScore : Int

/-- Modelled from the spec: the Run Configuration (`SWPrefs`, missing from the source at
hand): the scoring policy, the gap penalties and the score threshold. -/
structure SWPrefs where
  matcher : Matcher
  gapOpen : Int
  gapExtend : Int
  threshold : Int

/-- Modelled from the spec: the inner scoring step of the SM engine, a
substitution-matrix lookup. -/
def matrixScore (matcher : Matcher) (a b : Nat) : Int :=
  matcher.table a b

/-- Modelled from the spec: the inner scoring step of the MM engine, a direct
match/mismatch comparison of the two residues. -/
def simpleScore (matcher : Matcher) (a b : Nat) : Int :=
  if a = b then matcher.matchScore else matcher.mismatchScore

/-- Modelled from the spec: the contract both engines implement (section 4.2, "both
variants implement the identical recursive contract"): from a residue-pair scoring
step, the gap-open and gap-extend penalties, the threshold and the two sequences to a
result. The recursion itself, whose tie-breaking the spec leaves open, is a parameter. -/
abbrev Contract (R : Type) : Type :=
  (Nat → Nat → Int) → Int → Int → Int → Chain → Chain → R

/-- Modelled from the spec: the SM engine `swReconstructGPUSM` (missing from the source
at hand) is the shared contract with the substitution-matrix lookup as scoring step. -/
def swReconstructGPUSM {R : Type} (reconstruct : Contract R)
    (rowChain columnChain : Chain) (swPrefs : SWPrefs) : R :=
  reconstruct (matrixScore swPrefs.matcher) swPrefs.gapOpen swPrefs.gapExtend
    swPrefs.threshold rowChain columnChain

/-- Modelled from the spec: the MM engine `swReconstructGPUMM` (missing from the source
at hand) is the shared contract with the match/mismatch comparison as scoring step. -/
def swReconstructGPUMM {R : Type} (reconstruct : Contract R)
    (rowChain columnChain : Chain) (swPrefs : SWPrefs) : R :=
  reconstruct (simpleScore swPrefs.matcher) swPrefs.gapOpen swPrefs.gapExtend
    swPrefs.threshold rowChain columnChain

/-- Modelled from the spec: the externals of the dispatcher with the engines above.
The accessors (`swPrefsGetMatcher`, `matcherGetType`, missing from the source at hand)
read the matcher of the configuration and its capability tag; an engine retains no
state beyond what it returns (section 5), so it hands the memory back as it got it.
The value of `MATCHER_MATRIX` is not known and stays a parameter. -/
def externals {Mem R : Type} (MATCHER_MATRIX : Int) (reconstruct : Contract R) :
    Externals Mem Chain SWPrefs Matcher R where
  MATCHER_MATRIX := MATCHER_MATRIX
  swPrefsGetMatcher := fun _ swPrefs => swPrefs.matcher
  matcherGetType := fun _ matcher => matcher.type
  swReconstructGPUSM := fun rowChain columnChain swPrefs mem =>
    (swReconstructGPUSM reconstruct rowChain columnChain swPrefs, mem)
  swReconstructGPUMM := fun rowChain columnChain swPrefs mem =>
    (swReconstructGPUMM reconstruct rowChain columnChain swPrefs, mem)

/-- Modelled from the spec: one cell of a Score Vector, the best score in each of the three states of the
affine-gap recurrence (section 4.1). -/
structure Cell where
  m : Int
  x : Int
  y : Int
  deriving DecidableEq, Repr

/-- The cell on the boundary: no alignment started yet. -/
def Cell.zero : Cell := { m := 0, x := 0, y := 0 }

/-- Modelled from the spec: one row of the recurrence of section 4.1, for the row
residue `a`, over the columns left to right. `ups` is the previous row from the current
column on, `diag` the previous row's cell one column to the left, `left` the current
row's cell one column to the left. Every state is floored at 0 (local alignment). -/
def rowStep (score : Nat → Nat → Int) (gapOpen gapExtend : Int) (a : Nat) :
    List Nat → List Cell → Cell → Cell → List Cell
  | [], _, _, _ => []
  | _ :: _, [], _, _ => []
  | b :: bs, up :: ups, diag, left =>
    let cell : Cell :=
      { m := max 0 (max diag.m (max diag.x diag.y) + score a b)
        x := max 0 (max (up.m - gapOpen) (up.x - gapExtend))
        y := max 0 (max (left.m - gapOpen) (left.y - gapExtend)) }
    cell :: rowStep score gapOpen gapExtend a bs ups up cell

/-- Modelled from the spec: the running maximum of the forward pass, the score, row
and column (1-based) of the best cell so far. -/
structure Best where
  score : Int
  row : Nat
  column : Nat
  deriving DecidableEq, Repr

/-- Modelled from the spec: the running maximum after the cells of row `i`, from column
`j` on; a later cell wins only with a strictly larger score (lowest row, then lowest
column, on ties). -/
def bestOfRow (i : Nat) : Nat → List Cell → Best → Best
  | _, [], best => best
  | j, cell :: cells, best =>
    bestOfRow i (j + 1) cells (if best.score < cell.m then ⟨cell.m, i, j⟩ else best)

/-- Modelled from the spec: the forward score pass over all rows, keeping only the
previous row and the running maximum (sections 4.1 and 4.2). -/
def forwardPass (score : Nat → Nat → Int) (gapOpen gapExtend : Int) (columnChain : Chain) :
    Chain → Nat → List Cell → Best → Best
  | [], _, _, best => best
  | a :: as, i, prev, best =>
    let cur := rowStep score gapOpen gapExtend a columnChain prev Cell.zero Cell.zero
    forwardPass score gapOpen gapExtend columnChain as (i + 1) cur (bestOfRow i 1 cur best)

/-- Modelled from the spec: the first step of an engine's top-level entry (section 4.2):
locate the cell of maximum score by a forward pass, and report `NoAlignmentFoundError`
when that score does not exceed the threshold. An instance of `Contract`, giving the
score and end cell of the best local alignment. -/
def locateMaximum : Contract (Except SWError Best) :=
  fun score gapOpen gapExtend threshold rowChain columnChain =>
    let best := forwardPass score gapOpen gapExtend columnChain rowChain 1
      (columnChain.map fun _ => Cell.zero) ⟨0, 0, 0⟩
    if threshold < best.score then Except.ok best else Except.error SWError.NoAlignmentFoundError

/-- Value given to `MATCHER_MATRIX` in the concrete runs below (the header that defines
the constant is not at hand; the theorems hold for every value). -/
def MATCHER_MATRIX : Int := 0

/-- Value given to the simple match/mismatch tag in the concrete runs below. -/
def MATCHER_SIMPLE : Int := 1

/-- A substitution matrix scoring 2 on the diagonal and -1 off it. -/
def identityMatrix : Nat → Nat → Int :=
  fun a b => if a = b then 2 else -1

/-- A configuration with a substitution-matrix policy; gap open 2, gap extend 1 (charged
by subtraction, as the recurrence writes them), threshold 0. -/
def matrixPrefs : SWPrefs :=
  { matcher := { type := 0, table := identityMatrix, matchScore := 0, mismatchScore := 0 }
    gapOpen := 2, gapExtend := 1, threshold := 0 }

/-- A configuration with a simple policy: match 2, mismatch -1. -/
def simplePrefs : SWPrefs :=
  { matcher := { type := 1, table := fun _ _ => 0, matchScore := 2, mismatchScore := -1 }
    gapOpen := 2, gapExtend := 1, threshold := 0 }

/-- A configuration whose policy carries a tag that is neither of the two kinds. -/
def strangePrefs : SWPrefs :=
  { matcher := { type := 7, table := fun _ _ => 0, matchScore := 2, mismatchScore := -1 }
    gapOpen := 2, gapExtend := 1, threshold := 0 }

/-- The sequence ACACACTA, with A, C, G, T numbered 0, 1, 2, 3. -/
def rowACACACTA : Chain := [0, 1, 0, 1, 0, 1, 3, 0]

/-- The sequence AGCACACA. -/
def columnAGCACACA : Chain := [0, 2, 1, 0, 1, 0, 1, 0]

/-- The externals of the concrete runs: the engines of the spec over `locateMaximum`,
with a counter as memory. -/
def example_externals : Externals Nat Chain SWPrefs Matcher (Except SWError Best) :=
  externals MATCHER_MATRIX locateMaximum

end Spec

/-! Theorems. -/

section Routing

variable {Mem Chain SWPrefs Matcher SWHirschbergData : Type}

/-- Every run of `swReconstructGPU` is the run routed to the engine that `route` picks
for the matcher type read from the preferences. -/
theorem swReconstructGPU_eq_routed (E : Externals Mem Chain SWPrefs Matcher SWHirschbergData)
    (rowChain columnChain : Chain) (swPrefs : SWPrefs) (mem : Mem) :
    swReconstructGPU E rowChain columnChain swPrefs mem =
      routed E (route E (matcherTypeOf E mem swPrefs)) rowChain columnChain swPrefs mem := by
  unfold swReconstructGPU Run.bind route matcherTypeOf
  by_cases h : E.matcherGetType mem (E.swPrefsGetMatcher mem swPrefs) = E.MATCHER_MATRIX
  · simp [h, SwSharp.swPrefsGetMatcher, SwSharp.matcherGetType, SwSharp.swReconstructGPUSM,
      callEngine, routed]
  · simp [h, SwSharp.swPrefsGetMatcher, SwSharp.matcherGetType, SwSharp.swReconstructGPUMM,
      callEngine, routed]

/-- A routed run invokes its engine and no other. -/
theorem enginesInvoked_routed (E : Externals Mem Chain SWPrefs Matcher SWHirschbergData)
    (e : Engine) (rowChain columnChain : Chain) (swPrefs : SWPrefs) (mem : Mem) :
    enginesInvoked (routed E e rowChain columnChain swPrefs mem).calls = [e] := by
  simp [enginesInvoked, routed, Call.engine?, List.filterMap]

/-- A routed run invokes its engine once and the other engine not at all. -/
theorem invocations_routed (E : Externals Mem Chain SWPrefs Matcher SWHirschbergData)
    (e e' : Engine) (rowChain columnChain : Chain) (swPrefs : SWPrefs) (mem : Mem) :
    invocations e' (routed E e rowChain columnChain swPrefs mem).calls =
      if e = e' then 1 else 0 := by
  unfold invocations
  rw [enginesInvoked_routed]
  cases e <;> cases e' <;> decide

/-- The type `MATCHER_MATRIX` is routed to the SM engine. -/
theorem route_matrix (E : Externals Mem Chain SWPrefs Matcher SWHirschbergData)
    (matcherType : Int) (h : matcherType = E.MATCHER_MATRIX) :
    route E matcherType = Engine.SM := by
  simp [route, h]

/-- Every other type is routed to the MM engine. -/
theorem route_other (E : Externals Mem Chain SWPrefs Matcher SWHirschbergData)
    (matcherType : Int) (h : matcherType ≠ E.MATCHER_MATRIX) :
    route E matcherType = Engine.MM := by
  simp [route, h]

/-- C1: when the configured matcher has type `MATCHER_MATRIX`, `swReconstructGPU`
returns exactly what `swReconstructGPUSM` returns on the same row chain, column chain
and preferences (its value, and the memory it leaves), the SM engine is invoked once and
the MM engine is not invoked. -/
theorem swReconstructGPU_matrix_returns_SM
    (E : Externals Mem Chain SWPrefs Matcher SWHirschbergData)
    (rowChain columnChain : Chain) (swPrefs : SWPrefs) (mem : Mem)
    (h : matcherTypeOf E mem swPrefs = E.MATCHER_MATRIX) :
    (swReconstructGPU E rowChain columnChain swPrefs mem).value =
        (E.swReconstructGPUSM rowChain columnChain swPrefs mem).1 ∧
      (swReconstructGPU E rowChain columnChain swPrefs mem).mem =
        (E.swReconstructGPUSM rowChain columnChain swPrefs mem).2 ∧
      invocations Engine.SM (swReconstructGPU E rowChain columnChain swPrefs mem).calls = 1 ∧
      invocations Engine.MM (swReconstructGPU E rowChain columnChain swPrefs mem).calls = 0 := by
  rw [swReconstructGPU_eq_routed, route_matrix E _ h]
  refine ⟨rfl, rfl, ?_, ?_⟩ <;> rw [invocations_routed] <;> decide

/-- C2: when the configured matcher has the simple match/mismatch type (a tag
`MATCHER_SIMPLE` distinct from `MATCHER_MATRIX`), `swReconstructGPU` returns exactly what
`swReconstructGPUMM` returns on the same row chain, column chain and preferences (its
value, and the memory it leaves), the MM engine is invoked once and the SM engine is not
invoked. -/
theorem swReconstructGPU_simple_returns_MM
    (E : Externals Mem Chain SWPrefs Matcher SWHirschbergData) (MATCHER_SIMPLE : Int)
    (rowChain columnChain : Chain) (swPrefs : SWPrefs) (mem : Mem)
    (hdistinct : MATCHER_SIMPLE ≠ E.MATCHER_MATRIX)
    (h : matcherTypeOf E mem swPrefs = MATCHER_SIMPLE) :
    (swReconstructGPU E rowChain columnChain swPrefs mem).value =
        (E.swReconstructGPUMM rowChain columnChain swPrefs mem).1 ∧
      (swReconstructGPU E rowChain columnChain swPrefs mem).mem =
        (E.swReconstructGPUMM rowChain columnChain swPrefs mem).2 ∧
      invocations Engine.MM (swReconstructGPU E rowChain columnChain swPrefs mem).calls = 1 ∧
      invocations Engine.SM (swReconstructGPU E rowChain columnChain swPrefs mem).calls = 0 := by
  rw [swReconstructGPU_eq_routed, route_other E _ (h ▸ hdistinct)]
  refine ⟨rfl, rfl, ?_, ?_⟩ <;> rw [invocations_routed] <;> decide

/-- C3, as amended: when the matcher type is neither `MATCHER_MATRIX` nor the simple
tag, `swReconstructGPU` does not fail on its own: it invokes the MM engine once, does
not invoke the SM engine, and returns what `swReconstructGPUMM` returns. -/
theorem swReconstructGPU_unrecognised_returns_MM
    (E : Externals Mem Chain SWPrefs Matcher SWHirschbergData) (MATCHER_SIMPLE : Int)
    (rowChain columnChain : Chain) (swPrefs : SWPrefs) (mem : Mem)
    (hmatrix : matcherTypeOf E mem swPrefs ≠ E.MATCHER_MATRIX)
    (_hsimple : matcherTypeOf E mem swPrefs ≠ MATCHER_SIMPLE) :
    (swReconstructGPU E rowChain columnChain swPrefs mem).value =
        (E.swReconstructGPUMM rowChain columnChain swPrefs mem).1 ∧
      (swReconstructGPU E rowChain columnChain swPrefs mem).mem =
        (E.swReconstructGPUMM rowChain columnChain swPrefs mem).2 ∧
      invocations Engine.MM (swReconstructGPU E rowChain columnChain swPrefs mem).calls = 1 ∧
      invocations Engine.SM (swReconstructGPU E rowChain columnChain swPrefs mem).calls = 0 := by
  rw [swReconstructGPU_eq_routed, route_other E _ hmatrix]
  refine ⟨rfl, rfl, ?_, ?_⟩ <;> rw [invocations_routed] <;> decide

/-- C4: every run of `swReconstructGPU` makes exactly three calls: the two accessors on
the preferences, then one engine, once, on the caller's arguments; the number of SM
invocations plus the number of MM invocations is 1, and the value and memory returned
are that engine's, untouched. -/
theorem swReconstructGPU_invokes_one_engine_once
    (E : Externals Mem Chain SWPrefs Matcher SWHirschbergData)
    (rowChain columnChain : Chain) (swPrefs : SWPrefs) (mem : Mem) :
    ∃ e : Engine,
      swReconstructGPU E rowChain columnChain swPrefs mem =
        { value := (E.engine e rowChain columnChain swPrefs mem).1
          mem := (E.engine e rowChain columnChain swPrefs mem).2
          calls := [Call.swPrefsGetMatcher swPrefs,
            Call.matcherGetType (E.swPrefsGetMatcher mem swPrefs),
            Call.reconstruct e rowChain columnChain swPrefs mem] } ∧
      enginesInvoked (swReconstructGPU E rowChain columnChain swPrefs mem).calls = [e] ∧
      invocations Engine.SM (swReconstructGPU E rowChain columnChain swPrefs mem).calls +
        invocations Engine.MM (swReconstructGPU E rowChain columnChain swPrefs mem).calls = 1 := by
  refine ⟨route E (matcherTypeOf E mem swPrefs), ?_, ?_, ?_⟩
  · rw [swReconstructGPU_eq_routed]; rfl
  · rw [swReconstructGPU_eq_routed, enginesInvoked_routed]
  · rw [swReconstructGPU_eq_routed, invocations_routed, invocations_routed]
    cases route E (matcherTypeOf E mem swPrefs) <;> decide

/-- C5: an engine is called, and every engine call in the log of `swReconstructGPU` was
handed the caller's row chain as row chain, the caller's column chain as column chain
and the caller's preferences, in the memory the caller supplied: nothing was written
before the engine was entered, so the matcher and its type read the same as before. -/
theorem swReconstructGPU_hands_inputs_on_unchanged
    (E : Externals Mem Chain SWPrefs Matcher SWHirschbergData)
    (rowChain columnChain : Chain) (swPrefs : SWPrefs) (mem : Mem) :
    (∃ e : Engine, Call.reconstruct e rowChain columnChain swPrefs mem ∈
        (swReconstructGPU E rowChain columnChain swPrefs mem).calls) ∧
      ∀ (e : Engine) (rowChain' columnChain' : Chain) (swPrefs' : SWPrefs) (mem' : Mem),
        Call.reconstruct e rowChain' columnChain' swPrefs' mem' ∈
            (swReconstructGPU E rowChain columnChain swPrefs mem).calls →
          rowChain' = rowChain ∧ columnChain' = columnChain ∧ swPrefs' = swPrefs ∧
            mem' = mem ∧
            E.swPrefsGetMatcher mem' swPrefs' = E.swPrefsGetMatcher mem swPrefs ∧
            matcherTypeOf E mem' swPrefs' = matcherTypeOf E mem swPrefs := by
  rw [swReconstructGPU_eq_routed]
  refine ⟨⟨route E (matcherTypeOf E mem swPrefs), by simp [routed]⟩, ?_⟩
  intro e r c p m hmem
  simp [routed] at hmem
  obtain ⟨-, rfl, rfl, rfl, rfl⟩ := hmem
  exact ⟨rfl, rfl, rfl, rfl, rfl, rfl⟩

/-- C6: two runs of `swReconstructGPU` on the same row chain, column chain and
preferences, started in any two memories in which the preferences carry the same matcher
type, invoke the same engine; when the engines are deterministic functions of their
arguments, the two runs return the same value. The dispatcher keeps nothing from one
run to the next: the second memory is arbitrary. -/
theorem swReconstructGPU_idempotent
    (E : Externals Mem Chain SWPrefs Matcher SWHirschbergData)
    (rowChain columnChain : Chain) (swPrefs : SWPrefs) (mem mem' : Mem)
    (hsame : matcherTypeOf E mem swPrefs = matcherTypeOf E mem' swPrefs) :
    enginesInvoked (swReconstructGPU E rowChain columnChain swPrefs mem).calls =
        enginesInvoked (swReconstructGPU E rowChain columnChain swPrefs mem').calls ∧
      ((∀ e, Deterministic E e) →
        (swReconstructGPU E rowChain columnChain swPrefs mem).value =
          (swReconstructGPU E rowChain columnChain swPrefs mem').value) := by
  rw [swReconstructGPU_eq_routed, swReconstructGPU_eq_routed, hsame]
  refine ⟨by rw [enginesInvoked_routed, enginesInvoked_routed], fun hdet => ?_⟩
  exact hdet _ rowChain columnChain swPrefs mem mem'

/-- C8: for every integer `t` other than `MATCHER_MATRIX`, a run whose matcher type is
`t` returns exactly what `swReconstructGPUMM` returns on the same arguments and invokes
the MM engine only; and whatever the matcher type is, the value returned is the result
of one of the two engines: the dispatcher has no failing branch of its own. -/
theorem swReconstructGPU_defaults_to_MM
    (E : Externals Mem Chain SWPrefs Matcher SWHirschbergData)
    (rowChain columnChain : Chain) (swPrefs : SWPrefs) (mem : Mem) :
    (∀ t : Int, t ≠ E.MATCHER_MATRIX → matcherTypeOf E mem swPrefs = t →
        (swReconstructGPU E rowChain columnChain swPrefs mem).value =
            (E.swReconstructGPUMM rowChain columnChain swPrefs mem).1 ∧
          (swReconstructGPU E rowChain columnChain swPrefs mem).mem =
            (E.swReconstructGPUMM rowChain columnChain swPrefs mem).2 ∧
          enginesInvoked (swReconstructGPU E rowChain columnChain swPrefs mem).calls =
            [Engine.MM]) ∧
      ∃ e : Engine, (swReconstructGPU E rowChain columnChain swPrefs mem).value =
        engineResult E e rowChain columnChain swPrefs mem := by
  rw [swReconstructGPU_eq_routed]
  refine ⟨fun t ht h => ?_, ⟨_, rfl⟩⟩
  rw [route_other E _ (h ▸ ht)]
  exact ⟨rfl, rfl, enginesInvoked_routed _ _ _ _ _ _⟩

/-- C9: two requests whose preferences carry the same matcher type are routed to the
same engine, whatever their row chains, column chains, preferences and memories are
otherwise. -/
theorem swReconstructGPU_route_depends_on_type_only
    (E : Externals Mem Chain SWPrefs Matcher SWHirschbergData)
    (rowChain columnChain rowChain' columnChain' : Chain) (swPrefs swPrefs' : SWPrefs)
    (mem mem' : Mem)
    (hsame : matcherTypeOf E mem swPrefs = matcherTypeOf E mem' swPrefs') :
    enginesInvoked (swReconstructGPU E rowChain columnChain swPrefs mem).calls =
      enginesInvoked (swReconstructGPU E rowChain' columnChain' swPrefs' mem').calls := by
  rw [swReconstructGPU_eq_routed, swReconstructGPU_eq_routed, hsame,
    enginesInvoked_routed, enginesInvoked_routed]

end Routing

section Concrete

open Spec

/-- Witness of C1: ACACACTA against AGCACACA under the substitution-matrix
configuration; the value is the SM engine's, score 10 ending at row 5, column 8. -/
theorem swReconstructGPU_matrix_returns_SM_witness :
    matcherTypeOf example_externals 0 matrixPrefs = example_externals.MATCHER_MATRIX ∧
      ((swReconstructGPU example_externals rowACACACTA columnAGCACACA matrixPrefs 0).value =
          (example_externals.swReconstructGPUSM rowACACACTA columnAGCACACA matrixPrefs 0).1 ∧
        (swReconstructGPU example_externals rowACACACTA columnAGCACACA matrixPrefs 0).mem =
          (example_externals.swReconstructGPUSM rowACACACTA columnAGCACACA matrixPrefs 0).2 ∧
        invocations Engine.SM
          (swReconstructGPU example_externals rowACACACTA columnAGCACACA matrixPrefs 0).calls
            = 1 ∧
        invocations Engine.MM
          (swReconstructGPU example_externals rowACACACTA columnAGCACACA matrixPrefs 0).calls
            = 0) :=
  ⟨by decide,
    swReconstructGPU_matrix_returns_SM example_externals rowACACACTA columnAGCACACA
      matrixPrefs 0 (by decide)⟩

/-- Witness of C2: the same sequences under the simple configuration, tag 1. -/
theorem swReconstructGPU_simple_returns_MM_witness :
    MATCHER_SIMPLE ≠ example_externals.MATCHER_MATRIX ∧
      matcherTypeOf example_externals 0 simplePrefs = MATCHER_SIMPLE ∧
      ((swReconstructGPU example_externals rowACACACTA columnAGCACACA simplePrefs 0).value =
          (example_externals.swReconstructGPUMM rowACACACTA columnAGCACACA simplePrefs 0).1 ∧
        (swReconstructGPU example_externals rowACACACTA columnAGCACACA simplePrefs 0).mem =
          (example_externals.swReconstructGPUMM rowACACACTA columnAGCACACA simplePrefs 0).2 ∧
        invocations Engine.MM
          (swReconstructGPU example_externals rowACACACTA columnAGCACACA simplePrefs 0).calls
            = 1 ∧
        invocations Engine.SM
          (swReconstructGPU example_externals rowACACACTA columnAGCACACA simplePrefs 0).calls
            = 0) :=
  ⟨by decide, by decide,
    swReconstructGPU_simple_returns_MM example_externals MATCHER_SIMPLE rowACACACTA
      columnAGCACACA simplePrefs 0 (by decide) (by decide)⟩

set_option maxRecDepth 20000 in
/-- Counterexample to C3: with `MATCHER_MATRIX = 0` and the simple tag 1, a matcher of
type 7 is of neither kind, yet the run on ACACACTA and AGCACACA does not fail with
`UnsupportedMatcherError`: it invokes the MM engine once and returns its result, the
alignment of score 10 ending at row 5, column 8. -/
theorem swReconstructGPU_unrecognised_not_rejected :
    matcherTypeOf example_externals 0 strangePrefs = 7 ∧
      (7 : Int) ≠ example_externals.MATCHER_MATRIX ∧ (7 : Int) ≠ MATCHER_SIMPLE ∧
      (swReconstructGPU example_externals rowACACACTA columnAGCACACA strangePrefs 0).value =
        Except.ok ⟨10, 5, 8⟩ ∧
      (swReconstructGPU example_externals rowACACACTA columnAGCACACA strangePrefs 0).value ≠
        Except.error SWError.UnsupportedMatcherError ∧
      invocations Engine.MM
        (swReconstructGPU example_externals rowACACACTA columnAGCACACA strangePrefs 0).calls
          = 1 ∧
      invocations Engine.SM
        (swReconstructGPU example_externals rowACACACTA columnAGCACACA strangePrefs 0).calls
          = 0 := by
  have hvalue :
      (swReconstructGPU example_externals rowACACACTA columnAGCACACA strangePrefs 0).value =
        Except.ok ⟨10, 5, 8⟩ := by
    rfl
  refine ⟨by decide, by decide, by decide, hvalue, ?_, by decide, by decide⟩
  rw [hvalue]
  intro h
  cases h

/-- Witness of C3 as amended: the matcher of type 7 is routed to the MM engine. -/
theorem swReconstructGPU_unrecognised_returns_MM_witness :
    matcherTypeOf example_externals 0 strangePrefs ≠ example_externals.MATCHER_MATRIX ∧
      matcherTypeOf example_externals 0 strangePrefs ≠ MATCHER_SIMPLE ∧
      ((swReconstructGPU example_externals rowACACACTA columnAGCACACA strangePrefs 0).value =
          (example_externals.swReconstructGPUMM rowACACACTA columnAGCACACA strangePrefs 0).1 ∧
        (swReconstructGPU example_externals rowACACACTA columnAGCACACA strangePrefs 0).mem =
          (example_externals.swReconstructGPUMM rowACACACTA columnAGCACACA strangePrefs 0).2 ∧
        invocations Engine.MM
          (swReconstructGPU example_externals rowACACACTA columnAGCACACA strangePrefs 0).calls
            = 1 ∧
        invocations Engine.SM
          (swReconstructGPU example_externals rowACACACTA columnAGCACACA strangePrefs 0).calls
            = 0) :=
  ⟨by decide, by decide,
    swReconstructGPU_unrecognised_returns_MM example_externals MATCHER_SIMPLE rowACACACTA
      columnAGCACACA strangePrefs 0 (by decide) (by decide)⟩

/-- Witness of C5: the SM call in the log of the run under the substitution-matrix
configuration carries the caller's arguments and memory. -/
theorem swReconstructGPU_hands_inputs_on_unchanged_witness :
    Call.reconstruct Engine.SM rowACACACTA columnAGCACACA matrixPrefs 0 ∈
        (swReconstructGPU example_externals rowACACACTA columnAGCACACA matrixPrefs 0).calls ∧
      (rowACACACTA = rowACACACTA ∧ columnAGCACACA = columnAGCACACA ∧
        matrixPrefs = matrixPrefs ∧ (0 : Nat) = 0 ∧
        example_externals.swPrefsGetMatcher 0 matrixPrefs =
          example_externals.swPrefsGetMatcher 0 matrixPrefs ∧
        matcherTypeOf example_externals 0 matrixPrefs =
          matcherTypeOf example_externals 0 matrixPrefs) :=
  have hmem : Call.reconstruct Engine.SM rowACACACTA columnAGCACACA matrixPrefs 0 ∈
      (swReconstructGPU example_externals rowACACACTA columnAGCACACA matrixPrefs 0).calls :=
    List.mem_cons_of_mem _ (List.mem_cons_of_mem _ (List.mem_singleton.mpr rfl))
  ⟨hmem,
    (swReconstructGPU_hands_inputs_on_unchanged example_externals rowACACACTA
      columnAGCACACA matrixPrefs 0).2 Engine.SM rowACACACTA columnAGCACACA matrixPrefs 0 hmem⟩

/-- The engines of the concrete runs are deterministic functions of their arguments. -/
theorem example_externals_deterministic (e : Engine) : Deterministic example_externals e := by
  intro rowChain columnChain swPrefs mem mem'
  cases e <;> rfl

/-- Witness of C6: the run under the simple configuration, started with the counter at 0
and at 5. -/
theorem swReconstructGPU_idempotent_witness :
    matcherTypeOf example_externals 0 simplePrefs =
        matcherTypeOf example_externals 5 simplePrefs ∧
      (∀ e, Deterministic example_externals e) ∧
      enginesInvoked
          (swReconstructGPU example_externals rowACACACTA columnAGCACACA simplePrefs 0).calls =
        enginesInvoked
          (swReconstructGPU example_externals rowACACACTA columnAGCACACA simplePrefs 5).calls ∧
      (swReconstructGPU example_externals rowACACACTA columnAGCACACA simplePrefs 0).value =
        (swReconstructGPU example_externals rowACACACTA columnAGCACACA simplePrefs 5).value :=
  ⟨by decide, example_externals_deterministic,
    (swReconstructGPU_idempotent example_externals rowACACACTA columnAGCACACA simplePrefs
      0 5 (by decide)).1,
    (swReconstructGPU_idempotent example_externals rowACACACTA columnAGCACACA simplePrefs
      0 5 (by decide)).2 example_externals_deterministic⟩

/-- Witness of C8: the matcher type 7, which is not `MATCHER_MATRIX`, gets the MM
engine's result. -/
theorem swReconstructGPU_defaults_to_MM_witness :
    (7 : Int) ≠ example_externals.MATCHER_MATRIX ∧
      matcherTypeOf example_externals 0 strangePrefs = 7 ∧
      ((swReconstructGPU example_externals rowACACACTA columnAGCACACA strangePrefs 0).value =
          (example_externals.swReconstructGPUMM rowACACACTA columnAGCACACA strangePrefs 0).1 ∧
        (swReconstructGPU example_externals rowACACACTA columnAGCACACA strangePrefs 0).mem =
          (example_externals.swReconstructGPUMM rowACACACTA columnAGCACACA strangePrefs 0).2 ∧
        enginesInvoked
          (swReconstructGPU example_externals rowACACACTA columnAGCACACA strangePrefs 0).calls =
            [Engine.MM]) :=
  ⟨by decide, by decide,
    (swReconstructGPU_defaults_to_MM example_externals rowACACACTA columnAGCACACA
      strangePrefs 0).1 7 (by decide) (by decide)⟩

/-- Witness of C9: two requests that share only the matcher type 1: different sequences
(of different lengths), different gap penalties and threshold, different memory. -/
theorem swReconstructGPU_route_depends_on_type_only_witness :
    matcherTypeOf example_externals 0 simplePrefs =
        matcherTypeOf example_externals 4
          { simplePrefs with gapOpen := 11, gapExtend := 3, threshold := 6 } ∧
      enginesInvoked
          (swReconstructGPU example_externals rowACACACTA columnAGCACACA simplePrefs 0).calls =
        enginesInvoked
          (swReconstructGPU example_externals [3, 3, 2] [1]
            { simplePrefs with gapOpen := 11, gapExtend := 3, threshold := 6 } 4).calls :=
  ⟨by decide,
    swReconstructGPU_route_depends_on_type_only example_externals rowACACACTA columnAGCACACA
      [3, 3, 2] [1] simplePrefs { simplePrefs with gapOpen := 11, gapExtend := 3, threshold := 6 }
      0 4 (by decide)⟩

end Concrete

end SwSharp
